import Mathlib

/-!
Verification development for the stash-battle plugin
(`src/plugins/stash-battle/stash-battle.js`).

The JavaScript source is shallowly embedded below.  Conventions:

* JS objects become structures; `null`/`undefined` fields become `Option`.
* Scene ids are abstracted as naturals; filter keys are strings.
* `Math.random`-driven choices (Fisher–Yates shuffling, swap indices,
  candidate picks) are modelled by oracle parameters; theorems that need
  them assume only that a shuffle oracle returns a permutation of its
  input, which is true of the Fisher–Yates shuffle in the source.
* `Math.pow`/floating point arithmetic is idealised over `ℝ`;
  JS `Math.round x = ⌊x + 0.5⌋` coincides with Mathlib's `round`.
* Asynchronous calls are modelled by passing the fetched data in as
  parameters and returning the updated caches/state.
-/

namespace StashBattle

/-- A scene record (`rating100` and `play_count` may be null). -/
structure Scene where
  id : ℕ
  rating100 : Option ℤ
  play_count : Option ℕ
deriving DecidableEq, Repr

/-- JS `x || d` on a possibly-null integer: `null`/`undefined` and `0` are
falsy and yield the default. -/
def jsOrInt (x : Option ℤ) (d : ℤ) : ℤ :=
  match x with
  | some v => if v = 0 then d else v
  | none => d

/-- `s.rating100 || 0`, the comparison key used by the sorted "all scenes"
array. -/
def ratingOr0 (s : Scene) : ℤ := jsOrInt s.rating100 0

/-! ## Scene cache (two tiers) -/

/-- `CACHE_MAX_AGE_MS = 5 * 60 * 1000`. -/
def CACHE_MAX_AGE_MS : ℤ := 5 * 60 * 1000

/-- The in-process `memoryCache` object. -/
structure MemCache where
  allScenes : Option (List Scene)
  filteredScenes : Option (List Scene)
  filterKey : Option String
  timestamp : Option ℤ
deriving DecidableEq, Repr

/-- A record stored in the persistent tier (IndexedDB object store). -/
structure PersistEntry where
  scenes : List Scene
  count : ℕ
  filterKey : Option String
  timestamp : ℤ
deriving DecidableEq, Repr

/-- `getCachedScenes`: the persistent-tier read.  An entry whose age is not
strictly below `CACHE_MAX_AGE_MS` resolves to `null` (cache miss). -/
def getCachedScenes (store : Option PersistEntry) (now : ℤ) : Option PersistEntry :=
  match store with
  | some e => if now - e.timestamp < CACHE_MAX_AGE_MS then some e else none
  | none => none

/-- Result of `getAllScenesCached`: the served data, the updated memory
cache, the updated persistent "all-scenes" record, whether a blocking
network fetch happened, and how many background refreshes were fired. -/
structure AllCachedResult where
  scenes : List Scene
  count : ℕ
  mem : MemCache
  idb : Option PersistEntry
  didBlockingFetch : Bool
  bgRefreshes : ℕ
deriving Repr

/-- Staleness test `Date.now() - timestamp >= CACHE_MAX_AGE_MS`
(`null` timestamp compares as not stale, as NaN comparisons are false). -/
def memIsStale (ts : Option ℤ) (now : ℤ) : Bool :=
  match ts with
  | some t => decide (now - t ≥ CACHE_MAX_AGE_MS)
  | none => false

/-- `getAllScenesCached`: memory tier first (serving stale data while
firing a background refresh), then the persistent tier via
`getCachedScenes`, then a blocking network fetch.  The network response is
passed in as `networkScenes`/`networkCount`. -/
def getAllScenesCached (mem : MemCache) (idbAll : Option PersistEntry) (now : ℤ)
    (networkScenes : List Scene) (networkCount : ℕ) : AllCachedResult :=
  match mem.allScenes with
  | some scenes =>
    let isStale := memIsStale mem.timestamp now
    ⟨scenes, scenes.length, mem, idbAll, false, if isStale then 1 else 0⟩
  | none =>
    match getCachedScenes idbAll now with
    | some cached =>
      let isStale := memIsStale (some cached.timestamp) now
      ⟨cached.scenes, cached.count,
        { mem with allScenes := some cached.scenes, timestamp := some cached.timestamp },
        idbAll, false, if isStale then 1 else 0⟩
    | none =>
      ⟨networkScenes, networkCount,
        { mem with allScenes := some networkScenes, timestamp := some now },
        some ⟨networkScenes, networkCount, none, now⟩, true, 0⟩

/-- `backgroundRefreshFilteredScenes`, from the point where the network
response has arrived: commit to both tiers only if the filter key the
refresh was started for is still the active one, otherwise discard. -/
def backgroundRefreshFilteredScenes (mem : MemCache) (idbFiltered : Option PersistEntry)
    (fetchedScenes : List Scene) (fetchedCount : ℕ) (filterKey : String) (now : ℤ) :
    MemCache × Option PersistEntry :=
  if mem.filterKey = some filterKey then
    ({ mem with filteredScenes := some fetchedScenes, timestamp := some now },
      some ⟨fetchedScenes, fetchedCount, some filterKey, now⟩)
  else
    (mem, idbFiltered)

/-- `clearFilteredCache`: drops the filtered record from the persistent
tier and nulls the memory mirror. -/
def clearFilteredCache (mem : MemCache) :
    MemCache × Option PersistEntry :=
  ({ mem with filteredScenes := none, filterKey := none }, none)

/-! ## Sampling pool -/

/-- The free-standing pool variables
(`shuffledFilteredScenes`, `shuffleIndex`, `shuffleFilterKey`,
`removedSceneIds`, `lastShownSceneId`). -/
structure PoolState where
  shuffledFilteredScenes : List Scene
  shuffleIndex : ℕ
  shuffleFilterKey : Option String
  removedSceneIds : Finset ℕ
  lastShownSceneId : Option ℕ
deriving DecidableEq

/-- Initial pool state at plugin load. -/
def initialPoolState : PoolState := ⟨[], 0, none, ∅, none⟩

/-- The randomness consumed by one `getNextFilteredScene` call:
the Fisher–Yates shuffle outcome and the raw draw behind
`1 + Math.floor(Math.random() * (length - 1))`. -/
structure Rand where
  shuffle : List Scene → List Scene
  swapPick : ℕ

/-- Swap the elements at positions `0` and `j` (the cross-cycle
anti-repeat swap). -/
def swapHead (l : List Scene) (j : ℕ) : List Scene :=
  match l with
  | [] => []
  | x :: xs =>
    match j with
    | 0 => x :: xs
    | j + 1 =>
      match xs[j]? with
      | some y => y :: xs.set j x
      | none => x :: xs

/-- The pool's available set:
`filteredScenes.filter(s => !removedSceneIds.has(s.id))`. -/
def availableScenes (filteredScenes : List Scene) (removed : Finset ℕ) : List Scene :=
  filteredScenes.filter (fun s => decide (s.id ∉ removed))

/-- The cycle-boundary reshuffle of `getNextFilteredScene`: shuffle the
available scenes again and, if the new first element is the last-served
scene while more than one remains, swap it with a random other
position. -/
def reshuffleForNewCycle (r : Rand) (availableScenes : List Scene)
    (lastShown : Option ℕ) : List Scene :=
  let o := r.shuffle availableScenes
  match lastShown with
  | some lid =>
    if 1 < o.length ∧ o.head?.map Scene.id = some lid then
      -- Swap first scene with a random other position
      swapHead o (1 + r.swapPick % (o.length - 1))
    else o
  | none => o

/-- The tail of `getNextFilteredScene`: serve `order[i]` and advance the
cursor, remembering the served id as last shown. -/
def pickFromOrder (order : List Scene) (i : ℕ) (filterKey : String)
    (removed0 : Finset ℕ) (fallbackLast : Option ℕ) : Option Scene × PoolState :=
  match order[i]? with
  | some scene =>
    (some scene, ⟨order, i + 1, some filterKey, removed0, some scene.id⟩)
  | none =>
    (none, ⟨order, i, some filterKey, removed0, fallbackLast⟩)

/-- `getNextFilteredScene(filteredScenes, filterKey)`.  Returns the picked
scene (or `none` for the `EMPTY` pool-exhausted signal) together with the
updated pool state. -/
def getNextFilteredScene (r : Rand) (filteredScenes : List Scene) (filterKey : String)
    (st : PoolState) : Option Scene × PoolState :=
  -- If filter changed, clear removed tracking BEFORE filtering
  let removed0 : Finset ℕ :=
    match st.shuffleFilterKey with
    | some k => if filterKey ≠ k then ∅ else st.removedSceneIds
    | none => st.removedSceneIds
  -- Filter out scenes that were removed this session
  let availableScenes := filteredScenes.filter (fun s => decide (s.id ∉ removed0))
  if availableScenes = [] then
    (none, { st with removedSceneIds := removed0 })
  else
    -- Reshuffle if filter changed or first load
    let a :=
      if some filterKey ≠ st.shuffleFilterKey ∨ st.shuffledFilteredScenes = [] then
        (r.shuffle availableScenes, 0, (none : Option ℕ))
      else
        (st.shuffledFilteredScenes, st.shuffleIndex, st.lastShownSceneId)
    -- Reshuffle if we've gone through all remaining scenes
    let b :=
      if a.1.length ≤ a.2.1 then
        (reshuffleForNewCycle r availableScenes a.2.2, 0)
      else
        (a.1, a.2.1)
    pickFromOrder b.1 b.2 filterKey removed0 a.2.2

/-- Iterate `getNextFilteredScene` with fixed arguments, one oracle per
call. -/
def runPool (rs : List Rand) (filteredScenes : List Scene) (filterKey : String)
    (st : PoolState) : List (Option Scene) × PoolState :=
  match rs with
  | [] => ([], st)
  | r :: rest =>
    let p := getNextFilteredScene r filteredScenes filterKey st
    let q := runPool rest filteredScenes filterKey p.2
    (p.1 :: q.1, q.2)

/-- Remove the first scene with the given id (JS `findIndex` + `splice`). -/
def eraseFirstById (sceneId : ℕ) : List Scene → List Scene
  | [] => []
  | s :: rest =>
    if s.id = sceneId then rest else s :: eraseFirstById sceneId rest

/-- `removeFromFilteredPool(sceneId)`: record the removal, splice the scene
out of the memory cache's filtered bucket and out of the shuffled queue
(pulling the cursor back if the removal was before it). -/
def removeFromFilteredPool (sceneId : ℕ) (memFiltered : Option (List Scene))
    (st : PoolState) : Option (List Scene) × PoolState :=
  let removed := insert sceneId st.removedSceneIds
  let mem2 := memFiltered.map (eraseFirstById sceneId)
  let si := st.shuffledFilteredScenes.findIdx (fun s => decide (s.id = sceneId))
  if si < st.shuffledFilteredScenes.length then
    (mem2,
      { st with
          removedSceneIds := removed
          shuffledFilteredScenes := st.shuffledFilteredScenes.eraseIdx si
          shuffleIndex := if si < st.shuffleIndex then st.shuffleIndex - 1 else st.shuffleIndex })
  else
    (mem2, { st with removedSceneIds := removed })

/-! ## Rating logic -/

/-- `getKFactor(playCount)`: dynamic K-factor (null handled as 0). -/
def getKFactor (playCount : Option ℕ) : ℤ :=
  let count := playCount.getD 0
  if count < 3 then 12
  else if count < 8 then 8
  else if count < 15 then 6
  else 4

/-- `expectedWinner = 1 / (1 + 10 ^ ((loserRating - winnerRating) / 40))`
on already-defaulted ratings. -/
noncomputable def expectedWinnerScore (winnerRating loserRating : ℤ) : ℝ :=
  1 / (1 + (10 : ℝ) ^ (((loserRating - winnerRating : ℤ) : ℝ) / 40))

/-- The `currentMode` global. -/
inductive Mode where
  | swiss
  | gauntlet
  | champion
deriving DecidableEq, Repr

/-- The gauntlet globals consulted by `handleComparison`
(`gauntletChampion`, `gauntletFalling`, `gauntletFallingScene`). -/
structure GauntletCtx where
  champion : Option Scene
  falling : Bool
  fallingScene : Option Scene
deriving DecidableEq, Repr

/-- JS `x && id === x.id` for a possibly-null scene. -/
def optIdMatches (o : Option Scene) (i : ℕ) : Bool :=
  match o with
  | some s => decide (i = s.id)
  | none => false

/-- Result record of `handleComparison`. -/
structure CompResult where
  newWinnerRating : ℤ
  newLoserRating : ℤ
  winnerChange : ℤ
  loserChange : ℤ

/-- `handleComparison(winnerId, loserId, winnerCurrentRating,
loserCurrentRating, winnerPlayCount, loserPlayCount, loserRank)`.
In gauntlet/champion modes only the active side (champion or falling
scene) updates, except a rank-#1 defender that loses drops 1 point; Swiss
updates both sides by the ELO rule.  Results are clamped to `[1,100]`. -/
noncomputable def handleComparison (mode : Mode) (ctx : GauntletCtx)
    (winnerId loserId : ℕ) (winnerCurrentRating loserCurrentRating : Option ℤ)
    (winnerPlayCount loserPlayCount : Option ℕ) (loserRank : Option ℤ) : CompResult :=
  let winnerRating := jsOrInt winnerCurrentRating 50
  let loserRating := jsOrInt loserCurrentRating 50
  let expectedWinner := expectedWinnerScore winnerRating loserRating
  let g : ℤ × ℤ :=
    if mode = Mode.gauntlet ∨ mode = Mode.champion then
      let isChampionWinner := optIdMatches ctx.champion winnerId
      let isFallingWinner := ctx.falling && optIdMatches ctx.fallingScene winnerId
      let isChampionLoser := optIdMatches ctx.champion loserId
      let isFallingLoser := ctx.falling && optIdMatches ctx.fallingScene loserId
      let winnerGain :=
        if isChampionWinner || isFallingWinner then
          max 1 (round ((getKFactor winnerPlayCount : ℝ) * (1 - expectedWinner)))
        else 0
      let loserLoss0 :=
        if isChampionLoser || isFallingLoser then
          max 1 (round ((getKFactor loserPlayCount : ℝ) * expectedWinner))
        else 0
      let loserLoss :=
        if loserRank = some 1 ∧ isChampionLoser = false ∧ isFallingLoser = false then 1
        else loserLoss0
      (winnerGain, loserLoss)
    else
      let winnerK := getKFactor winnerPlayCount
      let loserK := getKFactor loserPlayCount
      (max 1 (round ((winnerK : ℝ) * (1 - expectedWinner))),
        max 1 (round ((loserK : ℝ) * expectedWinner)))
  let newWinnerRating := min 100 (max 1 (winnerRating + g.1))
  let newLoserRating := min 100 (max 1 (loserRating - g.2))
  ⟨newWinnerRating, newLoserRating,
    newWinnerRating - winnerRating, newLoserRating - loserRating⟩

/-- The value actually written by `updateSceneRating`:
`Math.max(1, Math.min(100, rating100))`. -/
def updateSceneRatingFinal (rating100 : ℤ) : ℤ :=
  max 1 (min 100 rating100)

/-- `finalizeGauntletLoss`: place the dethroned champion one point below
the scene that beat it, floored at 1. -/
def finalizeGauntletLossRating (winnerRating : ℤ) : ℤ :=
  max 1 (winnerRating - 1)

/-- `repositionSceneInArray(arr, sceneId, newRating)`: patch the scene's
rating, splice it out, and reinsert it at the first position whose
`rating100 || 0` is below the new rating (or at the end).  Returns JS
`false` (and the untouched array) when the id is absent. -/
def repositionSceneInArray (arr : List Scene) (sceneId : ℕ) (newRating : ℤ) :
    Bool × List Scene :=
  let idx := arr.findIdx (fun s => decide (s.id = sceneId))
  if h : idx < arr.length then
    let scene := arr.get ⟨idx, h⟩
    let scene2 := { scene with rating100 := some newRating }
    let arr2 := arr.eraseIdx idx
    let newIdx := arr2.findIdx (fun s => decide (ratingOr0 s < newRating))
    (true, List.insertIdx newIdx scene2 arr2)
  else
    (false, arr)

/-- Patch the first scene with the given id in place
(JS `find` then mutate). -/
def patchSceneRating (sceneId : ℕ) (newRating : ℤ) : List Scene → List Scene
  | [] => []
  | s :: rest =>
    if s.id = sceneId then { s with rating100 := some newRating } :: rest
    else s :: patchSceneRating sceneId newRating rest

/-- `updateSceneInCache(sceneId, newRating)`: reposition in the sorted
"all scenes" array; patch (without repositioning) in the filtered bucket. -/
def updateSceneInCache (mem : MemCache) (sceneId : ℕ) (newRating : ℤ) : MemCache :=
  let mem1 :=
    match mem.allScenes with
    | some arr =>
      { mem with allScenes := some (repositionSceneInArray arr sceneId newRating).2 }
    | none => mem
  match mem1.filteredScenes with
  | some l => { mem1 with filteredScenes := some (patchSceneRating sceneId newRating l) }
  | none => mem1

/-! ## Swiss pair selection -/

/-- A produced pair: the two scenes and their 1-based ranks in the full
sorted collection. -/
structure SwissPair where
  scene1 : Scene
  scene2 : Scene
  rank1 : ℤ
  rank2 : ℤ
deriving DecidableEq, Repr

/-- Opponent selection for Swiss mode: scan the window of 5 neighbour
positions above and below `scene1` in the full rating-sorted array
(JS `findIndex` misses become index `-1`), falling back to any other
scene, then pick by the random draw `pick`. -/
def pickOpponent (allScenes : List Scene) (scene1 : Scene) (pick : ℕ) : SwissPair :=
  let scene1Idx : ℤ :=
    ((allScenes.findIdx? (fun s => decide (s.id = scene1.id))).map (fun i => (i : ℤ))).getD (-1)
  let scene1RankInAll := scene1Idx + 1
  let len : ℤ := allScenes.length
  let reach : ℤ := 5
  let candidates : List (Scene × ℤ) :=
    (List.range 11).filterMap (fun j =>
      let i : ℤ := scene1Idx - reach + j
      if 0 ≤ i ∧ i < len ∧ i ≠ scene1Idx then
        (allScenes[i.toNat]?).map (fun s => (s, i))
      else none)
  let candidates2 :=
    if candidates = [] then
      let fallbackIdx : ℕ := cond (scene1Idx == 0) 1 0
      match allScenes[fallbackIdx]? with
      | some s => [(s, (fallbackIdx : ℤ))]
      | none => []
    else candidates
  match candidates2[pick % candidates2.length]? with
  | some c => ⟨scene1, c.1, scene1RankInAll, c.2 + 1⟩
  | none => ⟨scene1, scene1, scene1RankInAll, 0⟩

/-- Result of `fetchSwissPair`: the produced pair or thrown error message,
the final pool state, memory cache, persistent filtered record, and
whether the pool-exhaustion invalidate-and-refetch path ran. -/
structure FetchSwissResult where
  result : Except String SwissPair
  pool : PoolState
  mem : MemCache
  idbFiltered : Option PersistEntry
  forcedRefetch : Bool

/-- `fetchSwissPair`, from the point where the cached scene sets are in
hand.  `filteredScenes`/`allScenes` are what the (possibly cached) fetches
returned; `freshFiltered` is the network response of the forced refetch on
pool exhaustion; `r1`/`r2` are the oracles of the two possible
`getNextFilteredScene` calls and `pick` the opponent draw. -/
def fetchSwissPair (hasFilter : Bool) (filteredScenes allScenes freshFiltered : List Scene)
    (filterKey : String) (st : PoolState) (mem : MemCache)
    (idbFiltered : Option PersistEntry) (r1 r2 : Rand) (pick : ℕ) : FetchSwissResult :=
  let filtered0 := if hasFilter then filteredScenes else allScenes
  if allScenes.length < 2 then
    ⟨Except.error "Not enough scenes for comparison.", st, mem, idbFiltered, false⟩
  else
    let p1 := getNextFilteredScene r1 filtered0 filterKey st
    match p1.1 with
    | some scene1 =>
      ⟨Except.ok (pickOpponent allScenes scene1 pick), p1.2, mem, idbFiltered, false⟩
    | none =>
      -- Pool exhausted: clear the filtered cache and pool, refetch, retry once
      let c := clearFilteredCache mem
      let st2 : PoolState :=
        { shuffledFilteredScenes := []
          shuffleIndex := 0
          shuffleFilterKey := none
          removedSceneIds := ∅
          lastShownSceneId := p1.2.lastShownSceneId }
      let filtered2 := if hasFilter then freshFiltered else allScenes
      let p2 := getNextFilteredScene r2 filtered2 filterKey st2
      match p2.1 with
      | some scene1 =>
        ⟨Except.ok (pickOpponent allScenes scene1 pick), p2.2, c.1, c.2, true⟩
      | none =>
        ⟨Except.error "No scenes match your filter criteria.", p2.2, c.1, c.2, true⟩

/-! ## Spec-side definitions (transcribed from the natural-language spec,
for refinement comparisons) -/

/-- Spec §4.3: `K(playCount) = 12 if playCount<3, 8 if <8, 6 if <15,
else 4`. -/
def specK (playCount : ℕ) : ℤ :=
  if playCount < 3 then 12
  else if playCount < 8 then 8
  else if playCount < 15 then 6
  else 4

/-- Spec §4.3: `expectedWinner = 1 / (1 + 10^((loserRating -
winnerRating)/40))`. -/
noncomputable def specExpectedWinner (winnerRating loserRating : ℝ) : ℝ :=
  1 / (1 + (10 : ℝ) ^ ((loserRating - winnerRating) / 40))

/-! ## Helper lemmas -/

lemma getKFactor_eq_specK (pc : Option ℕ) : getKFactor pc = specK (pc.getD 0) := rfl

lemma expectedWinnerScore_eq_spec (w l : ℤ) :
    expectedWinnerScore w l = specExpectedWinner (w : ℝ) (l : ℝ) := by
  unfold expectedWinnerScore specExpectedWinner
  push_cast
  ring_nf

lemma expectedWinnerScore_self (r : ℤ) : expectedWinnerScore r r = 1 / 2 := by
  unfold expectedWinnerScore
  norm_num

/-- The Swiss (else) branch of `handleComparison`, spelled out. -/
lemma handleComparison_swiss (ctx : GauntletCtx) (wid lid : ℕ)
    (wr lr : Option ℤ) (wp lp : Option ℕ) (rank : Option ℤ) :
    handleComparison Mode.swiss ctx wid lid wr lr wp lp rank =
      { newWinnerRating := min 100 (max 1 (jsOrInt wr 50 +
          max 1 (round ((getKFactor wp : ℝ) *
            (1 - expectedWinnerScore (jsOrInt wr 50) (jsOrInt lr 50))))))
        newLoserRating := min 100 (max 1 (jsOrInt lr 50 -
          max 1 (round ((getKFactor lp : ℝ) *
            expectedWinnerScore (jsOrInt wr 50) (jsOrInt lr 50)))))
        winnerChange := min 100 (max 1 (jsOrInt wr 50 +
          max 1 (round ((getKFactor wp : ℝ) *
            (1 - expectedWinnerScore (jsOrInt wr 50) (jsOrInt lr 50)))))) - jsOrInt wr 50
        loserChange := min 100 (max 1 (jsOrInt lr 50 -
          max 1 (round ((getKFactor lp : ℝ) *
            expectedWinnerScore (jsOrInt wr 50) (jsOrInt lr 50))))) - jsOrInt lr 50 } := by
  simp [handleComparison]

/-- The gauntlet/champion branch of `handleComparison`, spelled out. -/
lemma handleComparison_gauntlet (m : Mode) (hm : m = Mode.gauntlet ∨ m = Mode.champion)
    (ctx : GauntletCtx) (wid lid : ℕ)
    (wr lr : Option ℤ) (wp lp : Option ℕ) (rank : Option ℤ) :
    handleComparison m ctx wid lid wr lr wp lp rank =
      (let w := jsOrInt wr 50
       let l := jsOrInt lr 50
       let e := expectedWinnerScore w l
       let icw := optIdMatches ctx.champion wid
       let ifw := ctx.falling && optIdMatches ctx.fallingScene wid
       let icl := optIdMatches ctx.champion lid
       let ifl := ctx.falling && optIdMatches ctx.fallingScene lid
       let wg := if icw || ifw then max 1 (round ((getKFactor wp : ℝ) * (1 - e))) else 0
       let ll0 := if icl || ifl then max 1 (round ((getKFactor lp : ℝ) * e)) else 0
       let ll := if rank = some 1 ∧ icl = false ∧ ifl = false then 1 else ll0
       { newWinnerRating := min 100 (max 1 (w + wg))
         newLoserRating := min 100 (max 1 (l - ll))
         winnerChange := min 100 (max 1 (w + wg)) - w
         loserChange := min 100 (max 1 (l - ll)) - l }) := by
  rcases hm with h | h <;> subst h <;> simp [handleComparison]

lemma getAllScenesCached_memHit (mem : MemCache) (idb : Option PersistEntry) (now : ℤ)
    (net : List Scene) (netCount : ℕ) (scenes : List Scene)
    (h : mem.allScenes = some scenes) :
    getAllScenesCached mem idb now net netCount =
      ⟨scenes, scenes.length, mem, idb, false,
        if memIsStale mem.timestamp now then 1 else 0⟩ := by
  unfold getAllScenesCached
  rw [h]

lemma getAllScenesCached_idbHit (mem : MemCache) (idb : Option PersistEntry) (now : ℤ)
    (net : List Scene) (netCount : ℕ) (e : PersistEntry)
    (h1 : mem.allScenes = none) (h2 : getCachedScenes idb now = some e) :
    getAllScenesCached mem idb now net netCount =
      ⟨e.scenes, e.count,
        { mem with allScenes := some e.scenes, timestamp := some e.timestamp },
        idb, false, if memIsStale (some e.timestamp) now then 1 else 0⟩ := by
  unfold getAllScenesCached
  rw [h1, h2]

lemma getAllScenesCached_blocking (mem : MemCache) (idb : Option PersistEntry) (now : ℤ)
    (net : List Scene) (netCount : ℕ)
    (h1 : mem.allScenes = none) (h2 : getCachedScenes idb now = none) :
    getAllScenesCached mem idb now net netCount =
      ⟨net, netCount, { mem with allScenes := some net, timestamp := some now },
        some ⟨net, netCount, none, now⟩, true, 0⟩ := by
  unfold getAllScenesCached
  rw [h1, h2]

lemma round_elo_half : round ((12 : ℝ) * (1 - 1 / 2)) = 6 := by
  have h : ((12 : ℝ) * (1 - 1 / 2)) = ((6 : ℤ) : ℝ) := by norm_num
  rw [h, round_intCast]

lemma round_elo_half_loss : round ((12 : ℝ) * (1 / 2)) = 6 := by
  have h : ((12 : ℝ) * (1 / 2)) = ((6 : ℤ) : ℝ) := by norm_num
  rw [h, round_intCast]

lemma ratingOr0_set (s : Scene) (r : ℤ) :
    ratingOr0 { s with rating100 := some r } = r := by
  by_cases h : r = 0 <;> simp [ratingOr0, jsOrInt, h]

/-- `insertIdx` at a `findIdx` position splits the list at the first
element satisfying the predicate. -/
lemma insertIdx_findIdx_eq {α : Type} (p : α → Bool) (x : α) (l : List α) :
    List.insertIdx (l.findIdx p) x l =
      l.takeWhile (fun a => !(p a)) ++ x :: l.dropWhile (fun a => !(p a)) := by
  induction l with
  | nil => simp
  | cons a l ih =>
    rw [List.findIdx_cons]
    by_cases h : p a
    · simp [h, List.takeWhile_cons, List.dropWhile_cons]
    · simp only [h, cond_false, List.insertIdx_succ_cons,
        List.takeWhile_cons, List.dropWhile_cons, Bool.not_false, if_true,
        Bool.false_eq_true, if_false, ih]
      simp [h]

/-- In a descending-sorted scene list, everything after the first element
rated below `c` is rated below `c`. -/
lemma sorted_dropWhile_lt (c : ℤ) (l : List Scene)
    (hs : l.Pairwise (fun a b => ratingOr0 b ≤ ratingOr0 a)) :
    ∀ s ∈ l.dropWhile (fun s => !(decide (ratingOr0 s < c))), ratingOr0 s < c := by
  induction l with
  | nil => simp
  | cons a l ih =>
    rw [List.dropWhile_cons]
    rcases List.pairwise_cons.mp hs with ⟨ha, hl⟩
    by_cases h : ratingOr0 a < c
    · rw [if_neg (by simp [h])]
      intro s hsmem
      rcases List.mem_cons.mp hsmem with h2 | h2
      · rw [h2]; exact h
      · exact lt_of_le_of_lt (ha s h2) h
    · rw [if_pos (by simp [h])]
      exact ih hl

lemma patchSceneRating_eq_map (sceneId : ℕ) (r : ℤ) (l : List Scene)
    (h : (l.map Scene.id).Nodup) :
    patchSceneRating sceneId r l =
      l.map (fun s => if s.id = sceneId then { s with rating100 := some r } else s) := by
  induction l with
  | nil => rfl
  | cons a l ih =>
    rw [List.map_cons, List.nodup_cons] at h
    simp only [patchSceneRating, List.map_cons]
    by_cases ha : a.id = sceneId
    · rw [if_pos ha, if_pos ha]
      congr 1
      have hall : ∀ s ∈ l, (if s.id = sceneId then { s with rating100 := some r } else s) = s := by
        intro s hsmem
        rw [if_neg]
        intro hid
        exact h.1 (by rw [ha, ← hid]; exact List.mem_map_of_mem Scene.id hsmem)
      rw [List.map_congr_left hall]
      exact (List.map_id l).symm
    · rw [if_neg ha, if_neg ha, ih h.2]

/-- A pool whose whole filtered set has been judged (removed) under an
unchanged filter key yields the `EMPTY` signal. -/
lemma getNextFilteredScene_exhausted (r : Rand) (filtered : List Scene) (k : String)
    (st : PoolState) (hkey : st.shuffleFilterKey = some k)
    (hall : ∀ s ∈ filtered, s.id ∈ st.removedSceneIds) :
    getNextFilteredScene r filtered k st = (none, { st with removedSceneIds := st.removedSceneIds }) := by
  unfold getNextFilteredScene
  rw [hkey]
  have hkk : ¬ (k ≠ k) := by simp
  simp only []
  simp only [if_neg hkk]
  have hav : List.filter (fun s => decide (s.id ∉ st.removedSceneIds)) filtered = [] := by
    rw [List.filter_eq_nil_iff]
    intro a ha
    simpa using hall a ha
  rw [hav]
  simp

/-- The removal-tracking invariant for a scene id `X`: it is recorded as
removed and no longer sits in the shuffled queue. -/
def removalInvariant (X : ℕ) (st : PoolState) : Prop :=
  X ∈ st.removedSceneIds ∧ ∀ s ∈ st.shuffledFilteredScenes, s.id ≠ X

lemma swapHead_perm (l : List Scene) (j : ℕ) : (swapHead l j).Perm l := by
  cases l with
  | nil => simp [swapHead]
  | cons x xs =>
    cases j with
    | zero => simp [swapHead]
    | succ j =>
      cases hxy : xs[j]? with
      | none => simp [swapHead, hxy]
      | some y =>
        simp only [swapHead, hxy]
        obtain ⟨hj, hg⟩ := List.getElem?_eq_some.mp hxy
        have hxs : xs = xs.take j ++ y :: xs.drop (j + 1) := by
          conv_lhs => rw [← List.take_append_drop j xs]
          rw [List.drop_eq_getElem_cons hj, hg]
        have hset : xs.set j x = xs.take j ++ x :: xs.drop (j + 1) := by
          rw [List.set_eq_take_append_cons_drop, if_pos hj]
        rw [hset]
        have step1 : (y :: (xs.take j ++ x :: xs.drop (j + 1))).Perm
            (y :: x :: (xs.take j ++ xs.drop (j + 1))) := List.Perm.cons y List.perm_middle
        have step2 : (y :: x :: (xs.take j ++ xs.drop (j + 1))).Perm
            (x :: y :: (xs.take j ++ xs.drop (j + 1))) := List.Perm.swap _ _ _
        have step3 : (x :: y :: (xs.take j ++ xs.drop (j + 1))).Perm
            (x :: (xs.take j ++ y :: xs.drop (j + 1))) :=
          List.Perm.cons x List.perm_middle.symm
        have step4 : (x :: (xs.take j ++ y :: xs.drop (j + 1))) = x :: xs := by rw [← hxs]
        exact step4 ▸ ((step1.trans step2).trans step3)

/-- After judging a scene, no scene with its id remains in the shuffled
queue (ids assumed unique), and the id is recorded as removed. -/
lemma eraseFirst_no_id (X : ℕ) (l : List Scene) (hnd : (l.map Scene.id).Nodup) :
    ∀ s ∈ l.eraseIdx (l.findIdx (fun s => decide (s.id = X))), s.id ≠ X := by
  induction l with
  | nil => simp
  | cons a l ih =>
    rw [List.map_cons, List.nodup_cons] at hnd
    rw [List.findIdx_cons]
    by_cases h : a.id = X
    · rw [decide_eq_true h]
      simp only [cond_true, List.eraseIdx_cons_zero]
      intro s hs hsx
      exact hnd.1 (by rw [h, ← hsx]; exact List.mem_map_of_mem Scene.id hs)
    · rw [decide_eq_false h]
      simp only [cond_false, List.eraseIdx_cons_succ]
      intro s hs
      rcases List.mem_cons.mp hs with h2 | h2
      · rw [h2]; exact h
      · exact ih hnd.2 s h2

lemma removeFromFilteredPool_establishes (X : ℕ) (memF : Option (List Scene))
    (st : PoolState) (hnd : (st.shuffledFilteredScenes.map Scene.id).Nodup) :
    removalInvariant X (removeFromFilteredPool X memF st).2 ∧
    (removeFromFilteredPool X memF st).2.shuffleFilterKey = st.shuffleFilterKey := by
  unfold removeFromFilteredPool
  by_cases h : st.shuffledFilteredScenes.findIdx (fun s => decide (s.id = X)) <
      st.shuffledFilteredScenes.length
  · rw [if_pos h]
    refine ⟨⟨Finset.mem_insert_self _ _, ?_⟩, rfl⟩
    exact eraseFirst_no_id X st.shuffledFilteredScenes hnd
  · rw [if_neg h]
    refine ⟨⟨Finset.mem_insert_self _ _, ?_⟩, rfl⟩
    intro s hs
    have hlen : st.shuffledFilteredScenes.findIdx (fun s => decide (s.id = X)) =
        st.shuffledFilteredScenes.length :=
      le_antisymm (List.findIdx_le_length _) (le_of_not_lt h)
    have := List.findIdx_eq_length.mp hlen s hs
    simpa using this

lemma reshuffleForNewCycle_perm (r : Rand) (hperm : ∀ l, (r.shuffle l).Perm l)
    (availableScenes : List Scene) (lastShown : Option ℕ) :
    (reshuffleForNewCycle r availableScenes lastShown).Perm availableScenes := by
  unfold reshuffleForNewCycle
  simp only []
  cases lastShown with
  | none => exact hperm availableScenes
  | some lid =>
    simp only []
    by_cases hc : 1 < (r.shuffle availableScenes).length ∧
        Option.map Scene.id (r.shuffle availableScenes).head? = some lid
    · rw [if_pos hc]
      exact (swapHead_perm _ _).trans (hperm availableScenes)
    · rw [if_neg hc]
      exact hperm availableScenes

lemma getNextFilteredScene_preserves_removal (r : Rand)
    (hperm : ∀ l, (r.shuffle l).Perm l)
    (filtered2 : List Scene) (k : String) (st : PoolState) (X : ℕ)
    (hkey : st.shuffleFilterKey = some k)
    (hinv : removalInvariant X st) :
    removalInvariant X (getNextFilteredScene r filtered2 k st).2 ∧
    (∀ sc, (getNextFilteredScene r filtered2 k st).1 = some sc → sc.id ≠ X) ∧
    (getNextFilteredScene r filtered2 k st).2.shuffleFilterKey = some k := by
  obtain ⟨hrem, hshuf⟩ := hinv
  unfold getNextFilteredScene
  rw [hkey]
  simp only []
  have hkk : ¬ (k ≠ k) := by simp
  simp only [if_neg hkk]
  have havail : ∀ s ∈ List.filter (fun s => decide (s.id ∉ st.removedSceneIds)) filtered2,
      s.id ≠ X := by
    intro s hs
    have := List.of_mem_filter hs
    simp only [decide_eq_true_eq] at this
    intro hsx
    exact this (hsx ▸ hrem)
  by_cases hav : List.filter (fun s => decide (s.id ∉ st.removedSceneIds)) filtered2 = []
  · rw [if_pos hav]
    refine ⟨⟨hrem, hshuf⟩, ?_, rfl⟩
    intro sc h
    cases h
  · rw [if_neg hav]
    simp only [ne_eq, not_true_eq_false, false_or]
    have key : ∀ (ord : List Scene) (i : ℕ) (fl : Option ℕ),
        (∀ s ∈ ord, s.id ≠ X) →
        removalInvariant X (pickFromOrder ord i k st.removedSceneIds fl).2 ∧
        (∀ sc, (pickFromOrder ord i k st.removedSceneIds fl).1 = some sc → sc.id ≠ X) ∧
        (pickFromOrder ord i k st.removedSceneIds fl).2.shuffleFilterKey = some k := by
      intro ord i fl hord
      unfold pickFromOrder
      cases hget : ord[i]? with
      | some sc =>
        refine ⟨⟨hrem, hord⟩, ?_, rfl⟩
        intro sc2 h
        injection h with h
        exact h ▸ hord sc (List.getElem?_mem hget)
      | none =>
        refine ⟨⟨hrem, hord⟩, ?_, rfl⟩
        intro sc h
        cases h
    split
    · -- first load: the order is a fresh shuffle of the available scenes
      split
      · simp only []
        exact key _ _ _ fun s hs =>
          havail s ((reshuffleForNewCycle_perm r hperm _ _).mem_iff.mp hs)
      · simp only []
        exact key _ _ _ fun s hs => havail s ((hperm _).mem_iff.mp hs)
    · -- continuing the existing order (possibly reshuffling at its end)
      split
      · simp only []
        exact key _ _ _ fun s hs =>
          havail s ((reshuffleForNewCycle_perm r hperm _ _).mem_iff.mp hs)
      · simp only []
        exact key _ _ _ hshuf

lemma pickFromOrder_removed (ord : List Scene) (i : ℕ) (k : String)
    (rem : Finset ℕ) (fl : Option ℕ) :
    (pickFromOrder ord i k rem fl).2.removedSceneIds = rem := by
  unfold pickFromOrder
  split <;> rfl

lemma getNextFilteredScene_key_change_clears (r : Rand) (filtered2 : List Scene)
    (k k' : String) (st : PoolState)
    (hkey : st.shuffleFilterKey = some k') (hne : k ≠ k') :
    (getNextFilteredScene r filtered2 k st).2.removedSceneIds = ∅ := by
  unfold getNextFilteredScene
  rw [hkey]
  simp only []
  simp only [if_pos hne]
  split
  · rfl
  · exact pickFromOrder_removed _ _ _ _ _

lemma runPool_never_returns_removed (rs : List Rand) (filtered2 : List Scene)
    (k : String) (st : PoolState) (X : ℕ)
    (hperm : ∀ r ∈ rs, ∀ l, (Rand.shuffle r l).Perm l)
    (hkey : st.shuffleFilterKey = some k) (hinv : removalInvariant X st) :
    ∀ res ∈ (runPool rs filtered2 k st).1, ∀ sc, res = some sc → sc.id ≠ X := by
  induction rs generalizing st with
  | nil => simp [runPool]
  | cons r rest ih =>
    simp only [runPool]
    intro res hres sc hsc
    obtain ⟨hinv2, hsafe, hkey2⟩ := getNextFilteredScene_preserves_removal r
      (hperm r (List.mem_cons_self r rest)) filtered2 k st X hkey hinv
    rcases List.mem_cons.mp hres with h | h
    · exact hsafe sc (by rw [← h]; exact hsc)
    · exact ih _ (fun r2 hr2 => hperm r2 (List.mem_cons_of_mem r hr2)) hkey2 hinv2
        res h sc hsc

lemma filter_not_mem_empty (l : List Scene) :
    List.filter (fun s => decide (s.id ∉ (∅ : Finset ℕ))) l = l := by
  induction l with
  | nil => rfl
  | cons a l ih => simp [ih]

lemma swapHead_head (l : List Scene) (j : ℕ) (hj : j < l.length) (hj0 : j ≠ 0) :
    (swapHead l j)[0]? = l[j]? := by
  cases l with
  | nil => cases hj
  | cons x xs =>
    cases j with
    | zero => exact absurd rfl hj0
    | succ j =>
      have hjx : j < xs.length := by simpa using hj
      have hget : xs[j]? = some xs[j] := List.getElem?_eq_getElem hjx
      simp only [swapHead, hget]
      rw [List.getElem?_cons_succ, hget]
      exact List.getElem?_cons_zero

/-- One mid-cycle step: with an unchanged key, an unchanged removed set
and an in-range cursor, `next` serves `order[i]` and advances the
cursor. -/
lemma getNextFilteredScene_mid (r : Rand) (filtered2 : List Scene) (k : String)
    (R : Finset ℕ) (order : List Scene) (i : ℕ) (last : Option ℕ) (s : Scene)
    (hav : availableScenes filtered2 R ≠ []) (hord : order ≠ [])
    (hs : order[i]? = some s) (hi : i < order.length) :
    getNextFilteredScene r filtered2 k ⟨order, i, some k, R, last⟩ =
      (some s, ⟨order, i + 1, some k, R, some s.id⟩) := by
  unfold getNextFilteredScene
  simp only []
  have hkk : ¬ (k ≠ k) := by simp
  simp only [if_neg hkk]
  have hav2 : ¬ (List.filter (fun s => decide (s.id ∉ R)) filtered2 = []) := hav
  rw [if_neg hav2]
  have hc1 : ¬ (some k ≠ some k ∨ order = []) := by simp [hord]
  rw [if_neg hc1]
  simp only []
  rw [if_neg (by omega : ¬ order.length ≤ i)]
  unfold pickFromOrder
  simp only []
  rw [hs]

/-- The first call of a fresh cycle under an unchanged filter key (the
shuffle order is empty, e.g. at first load or after a pool reset): the
removed set is preserved, the available scenes — the filtered list minus
the removed ids — are shuffled into a fresh order and its head is
served. -/
lemma getNextFilteredScene_fresh_same_key (r : Rand) (filtered2 : List Scene)
    (k : String) (i0 : ℕ) (R : Finset ℕ) (last0 : Option ℕ) (s : Scene)
    (hav : availableScenes filtered2 R ≠ [])
    (hs : (r.shuffle (availableScenes filtered2 R))[0]? = some s) :
    getNextFilteredScene r filtered2 k ⟨[], i0, some k, R, last0⟩ =
      (some s, ⟨r.shuffle (availableScenes filtered2 R), 1, some k, R, some s.id⟩) := by
  unfold getNextFilteredScene
  simp only []
  have hkk : ¬ (k ≠ k) := by simp
  simp only [if_neg hkk]
  have hav2 : ¬ (List.filter (fun s => decide (s.id ∉ R)) filtered2 = []) := hav
  rw [if_neg hav2]
  rw [if_pos (show some k ≠ some k ∨ True from Or.inr trivial)]
  simp only []
  have hs2 : (r.shuffle (List.filter (fun s => decide (s.id ∉ R)) filtered2))[0]? =
      some s := hs
  have hord : r.shuffle (List.filter (fun s => decide (s.id ∉ R)) filtered2) ≠ [] := by
    intro h
    rw [h] at hs2
    cases hs2
  have hlen0 : 0 < (r.shuffle (List.filter (fun s => decide (s.id ∉ R)) filtered2)).length :=
    List.length_pos.mpr hord
  rw [if_neg (by omega :
    ¬ (r.shuffle (List.filter (fun s => decide (s.id ∉ R)) filtered2)).length ≤ 0)]
  unfold pickFromOrder
  simp only []
  rw [hs2]
  rfl

lemma runPool_cons (r : Rand) (rest : List Rand) (filtered2 : List Scene) (k : String)
    (st : PoolState) :
    runPool (r :: rest) filtered2 k st =
      ((getNextFilteredScene r filtered2 k st).1 ::
        (runPool rest filtered2 k (getNextFilteredScene r filtered2 k st).2).1,
        (runPool rest filtered2 k (getNextFilteredScene r filtered2 k st).2).2) := rfl

/-- A run of `m` mid-cycle steps serves `order[i], …, order[i+m-1]` in
order. -/
lemma runPool_mid (rs : List Rand) (filtered2 : List Scene) (k : String)
    (R : Finset ℕ) (order : List Scene) (i : ℕ) (last : Option ℕ)
    (hav : availableScenes filtered2 R ≠ []) (hord : order ≠ [])
    (hlen : i + rs.length ≤ order.length) :
    (runPool rs filtered2 k ⟨order, i, some k, R, last⟩).1 =
      ((order.drop i).take rs.length).map some ∧
    (runPool rs filtered2 k ⟨order, i, some k, R, last⟩).2 =
      ⟨order, i + rs.length, some k, R,
        if rs.length = 0 then last else (order[i + rs.length - 1]?).map Scene.id⟩ := by
  induction rs generalizing i last with
  | nil =>
    simp [runPool]
  | cons r rest ih =>
    have hi : i < order.length := by
      have := hlen
      simp only [List.length_cons] at this
      omega
    have hs : order[i]? = some order[i] := List.getElem?_eq_getElem hi
    rw [runPool_cons,
      getNextFilteredScene_mid r filtered2 k R order i last order[i] hav hord hs hi]
    have hlen2 : (i + 1) + rest.length ≤ order.length := by
      have := hlen
      simp only [List.length_cons] at this
      omega
    obtain ⟨h1, h2⟩ := ih (i + 1) (some order[i].id) hlen2
    constructor
    · rw [h1]
      simp only [List.length_cons]
      rw [List.drop_eq_getElem_cons hi, List.take_succ_cons, List.map_cons]
    · rw [h2]
      simp only [List.length_cons]
      have hidx : i + 1 + rest.length = i + (rest.length + 1) := by omega
      rw [hidx]
      by_cases h0 : rest.length = 0
      · rw [if_pos h0, if_neg (by omega : ¬ rest.length + 1 = 0)]
        have h3 : i + (rest.length + 1) - 1 = i := by omega
        rw [h3, hs]
        rfl
      · rw [if_neg h0, if_neg (by omega : ¬ rest.length + 1 = 0)]

/-- At a cycle boundary the reshuffled order's head differs from the
last-served id (the swap rule), provided more than one distinct-id scene
is available. -/
lemma reshuffleForNewCycle_head (r : Rand) (filtered2 : List Scene) (lastId : ℕ)
    (hperm : ∀ l, (r.shuffle l).Perm l)
    (hn : 1 < filtered2.length) (hnd : (filtered2.map Scene.id).Nodup) :
    ∃ s, (reshuffleForNewCycle r filtered2 (some lastId))[0]? = some s ∧
      s.id ≠ lastId ∧ s ∈ filtered2 := by
  have ho : (r.shuffle filtered2).Perm filtered2 := hperm filtered2
  have hlen : (r.shuffle filtered2).length = filtered2.length := ho.length_eq
  have holen : 1 < (r.shuffle filtered2).length := by omega
  have hone : 0 < (r.shuffle filtered2).length := by omega
  have hond : ((r.shuffle filtered2).map Scene.id).Nodup :=
    (ho.map Scene.id).nodup_iff.mpr hnd
  have hhead : (r.shuffle filtered2).head? = some ((r.shuffle filtered2)[0]) := by
    rw [List.head?_eq_getElem?]
    exact List.getElem?_eq_getElem hone
  unfold reshuffleForNewCycle
  simp only []
  by_cases hc : 1 < (r.shuffle filtered2).length ∧
      Option.map Scene.id (r.shuffle filtered2).head? = some lastId
  · rw [if_pos hc]
    have hid0 : (r.shuffle filtered2)[0].id = lastId := by
      rw [hhead] at hc
      simpa using hc.2
    have hj : 1 + r.swapPick % ((r.shuffle filtered2).length - 1) <
        (r.shuffle filtered2).length := by
      have := Nat.mod_lt r.swapPick (show 0 < (r.shuffle filtered2).length - 1 by omega)
      omega
    have hj0 : 1 + r.swapPick % ((r.shuffle filtered2).length - 1) ≠ 0 := by omega
    refine ⟨(r.shuffle filtered2)[1 + r.swapPick % ((r.shuffle filtered2).length - 1)],
      ?_, ?_, ?_⟩
    · rw [swapHead_head _ _ hj hj0]
      exact List.getElem?_eq_getElem hj
    · intro heq
      have hji : (1 + r.swapPick % ((r.shuffle filtered2).length - 1) : ℕ) = 0 := by
        have hlt1 : 1 + r.swapPick % ((r.shuffle filtered2).length - 1) <
            ((r.shuffle filtered2).map Scene.id).length := by simpa using hj
        have hlt2 : 0 < ((r.shuffle filtered2).map Scene.id).length := by simpa using hone
        have hmeq : ((r.shuffle filtered2).map Scene.id)[1 + r.swapPick %
            ((r.shuffle filtered2).length - 1)] =
            ((r.shuffle filtered2).map Scene.id)[0] := by
          rw [List.getElem_map, List.getElem_map]
          rw [heq, hid0]
        exact (hond.getElem_inj_iff).mp hmeq
      exact hj0 hji
    · exact ho.mem_iff.mp (List.getElem_mem _)
  · rw [if_neg hc]
    refine ⟨(r.shuffle filtered2)[0], List.getElem?_eq_getElem hone, ?_, ?_⟩
    · intro heq
      apply hc
      refine ⟨holen, ?_⟩
      rw [hhead]
      simpa using heq
    · exact ho.mem_iff.mp (List.getElem_mem _)

/-- The cycle-boundary step of `next`: when the cursor has run off the end
of the order, a fresh shuffle is served whose head is never the
last-served scene (given more than one available with distinct ids). -/
lemma getNextFilteredScene_cycle (r : Rand) (filtered2 : List Scene) (k : String)
    (R : Finset ℕ) (order : List Scene) (lastId : ℕ)
    (hperm : ∀ l, (r.shuffle l).Perm l)
    (hord : order ≠ []) (hn : 1 < (availableScenes filtered2 R).length)
    (hnd : ((availableScenes filtered2 R).map Scene.id).Nodup) :
    ∃ s, (getNextFilteredScene r filtered2 k
        ⟨order, order.length, some k, R, some lastId⟩).1 = some s ∧
      s.id ≠ lastId ∧ s ∈ availableScenes filtered2 R := by
  have hav : ¬ (List.filter (fun s => decide (s.id ∉ R)) filtered2 = []) := by
    intro h
    have h2 : availableScenes filtered2 R = [] := h
    rw [h2] at hn
    simp at hn
  obtain ⟨s, hs0, hsid, hsmem⟩ := reshuffleForNewCycle_head r
    (availableScenes filtered2 R) lastId hperm hn hnd
  refine ⟨s, ?_, hsid, hsmem⟩
  unfold getNextFilteredScene
  simp only []
  have hkk : ¬ (k ≠ k) := by simp
  simp only [if_neg hkk]
  rw [if_neg hav]
  have hc1 : ¬ (some k ≠ some k ∨ order = []) := by simp [hord]
  rw [if_neg hc1]
  simp only []
  rw [if_pos (le_refl order.length)]
  unfold pickFromOrder
  simp only []
  have hs2 : (reshuffleForNewCycle r
      (List.filter (fun s => decide (s.id ∉ R)) filtered2) (some lastId))[0]? =
      some s := hs0
  rw [hs2]

lemma runPool_append (rs1 rs2 : List Rand) (filtered2 : List Scene) (k : String)
    (st : PoolState) :
    runPool (rs1 ++ rs2) filtered2 k st =
      ((runPool rs1 filtered2 k st).1 ++
        (runPool rs2 filtered2 k (runPool rs1 filtered2 k st).2).1,
        (runPool rs2 filtered2 k (runPool rs1 filtered2 k st).2).2) := by
  induction rs1 generalizing st with
  | nil => simp [runPool]
  | cons r rest ih =>
    rw [List.cons_append, runPool_cons, ih, runPool_cons]
    simp

/-! ## Claim theorems -/

/-- C1: In Swiss mode the rating update follows the spec's dynamic-K
ELO rule — `K(playCount) = 12/8/6/4` by experience (null as 0),
`expectedWinner = 1 / (1 + 10^((loserRating - winnerRating)/40))`,
ratings defaulting to 50 when absent — and for two items both rated 50
with play count 0, both deltas are `round(12 * 0.5) = 6`, taking the
winner to 56 and the loser to 44. -/
theorem swiss_update_follows_spec_elo :
    (∀ (ctx : GauntletCtx) (wid lid : ℕ) (wr lr : Option ℤ) (wp lp : Option ℕ)
        (rank : Option ℤ),
      (handleComparison Mode.swiss ctx wid lid wr lr wp lp rank).newWinnerRating =
        min 100 (max 1 (jsOrInt wr 50 +
          max 1 (round ((specK (wp.getD 0) : ℝ) *
            (1 - specExpectedWinner ((jsOrInt wr 50 : ℤ) : ℝ) ((jsOrInt lr 50 : ℤ) : ℝ)))))) ∧
      (handleComparison Mode.swiss ctx wid lid wr lr wp lp rank).newLoserRating =
        min 100 (max 1 (jsOrInt lr 50 -
          max 1 (round ((specK (lp.getD 0) : ℝ) *
            specExpectedWinner ((jsOrInt wr 50 : ℤ) : ℝ) ((jsOrInt lr 50 : ℤ) : ℝ)))))) ∧
    ((handleComparison Mode.swiss ⟨none, false, none⟩ 1 2 (some 50) (some 50)
        (some 0) (some 0) none).newWinnerRating = 56 ∧
      (handleComparison Mode.swiss ⟨none, false, none⟩ 1 2 (some 50) (some 50)
        (some 0) (some 0) none).newLoserRating = 44 ∧
      (handleComparison Mode.swiss ⟨none, false, none⟩ 1 2 (some 50) (some 50)
        (some 0) (some 0) none).winnerChange = 6 ∧
      (handleComparison Mode.swiss ⟨none, false, none⟩ 1 2 (some 50) (some 50)
        (some 0) (some 0) none).loserChange = -6) := by
  constructor
  · intro ctx wid lid wr lr wp lp rank
    rw [handleComparison_swiss]
    constructor <;>
      simp [getKFactor_eq_specK, expectedWinnerScore_eq_spec]
  · rw [handleComparison_swiss]
    have hj : jsOrInt (some 50) 50 = 50 := by norm_num [jsOrInt]
    have hk : getKFactor (some 0) = 12 := by norm_num [getKFactor]
    simp only [hj, hk, expectedWinnerScore_self]
    push_cast
    rw [round_elo_half, round_elo_half_loss]
    constructor
    · omega
    constructor
    · omega
    constructor
    · omega
    · omega

/-- C9 (amended): in Swiss mode the computed loser penalty is always at
least 1, so the loser's new rating is at most `max 1 (oldRating - 1)`;
the applied rating change is ≤ -1 whenever the loser's (defaulted)
rating is at least 2.  (At the floor rating 1 the `[1,100]` clamp
absorbs the penalty and the applied change is 0.) -/
theorem swiss_loser_always_penalized (ctx : GauntletCtx) (wid lid : ℕ)
    (wr lr : Option ℤ) (wp lp : Option ℕ) (rank : Option ℤ) :
    (handleComparison Mode.swiss ctx wid lid wr lr wp lp rank).newLoserRating ≤
      max 1 (jsOrInt lr 50 - 1) ∧
    (2 ≤ jsOrInt lr 50 →
      (handleComparison Mode.swiss ctx wid lid wr lr wp lp rank).loserChange ≤ -1) := by
  rw [handleComparison_swiss]
  simp only []
  have h1 : (1 : ℤ) ≤ max 1 (round ((getKFactor lp : ℝ) *
      expectedWinnerScore (jsOrInt wr 50) (jsOrInt lr 50))) := le_max_left _ _
  generalize (max 1 (round ((getKFactor lp : ℝ) *
      expectedWinnerScore (jsOrInt wr 50) (jsOrInt lr 50)))) = q at h1
  constructor
  · omega
  · intro h2; omega

/-- C9 witness: concrete Swiss decision where the amended claim's
hypothesis holds and the loser indeed drops by at least one. -/
theorem swiss_loser_always_penalized_witness :
    2 ≤ jsOrInt (some 50) 50 ∧
    (handleComparison Mode.swiss ⟨none, false, none⟩ 1 2 (some 60) (some 50)
      none none none).loserChange ≤ -1 :=
  ⟨by decide,
    (swiss_loser_always_penalized ⟨none, false, none⟩ 1 2 (some 60) (some 50)
      none none none).2 (by decide)⟩

/-- C9 counterexample: a Swiss loser already at the floor rating 1 has a
zero applied change — the claim's "no zero-change outcome for the loser"
fails as stated. -/
theorem swiss_loser_floor_counterexample :
    (handleComparison Mode.swiss ⟨none, false, none⟩ 1 2 (some 50) (some 1)
      none none none).loserChange = 0 := by
  rw [handleComparison_swiss]
  simp only []
  have hl : jsOrInt (some 1) 50 = 1 := by norm_num [jsOrInt]
  rw [hl]
  have h1 : (1 : ℤ) ≤ max 1 (round ((getKFactor none : ℝ) *
      expectedWinnerScore (jsOrInt (some 50) 50) 1)) := le_max_left _ _
  generalize (max 1 (round ((getKFactor none : ℝ) *
      expectedWinnerScore (jsOrInt (some 50) 50) 1))) = q at h1
  omega

/-- C10: every value written through `updateSceneRating` is clamped into
`[1,100]` inside the function itself, whatever the caller supplies; in
particular the Gauntlet settle value `min(100, loserRating + 1)`, the
bottom placement value 1, and `finalizeGauntletLoss`'s
`max(1, winnerRating - 1)` (which is 1 when the winner is rated 1) never
produce an out-of-range write. -/
theorem updateSceneRating_clamps_range (r w : ℤ) :
    (1 ≤ updateSceneRatingFinal r ∧ updateSceneRatingFinal r ≤ 100) ∧
    (1 ≤ updateSceneRatingFinal (min 100 (r + 1)) ∧
      updateSceneRatingFinal (min 100 (r + 1)) ≤ 100) ∧
    updateSceneRatingFinal 1 = 1 ∧
    (1 ≤ updateSceneRatingFinal (finalizeGauntletLossRating w) ∧
      updateSceneRatingFinal (finalizeGauntletLossRating w) ≤ 100) ∧
    finalizeGauntletLossRating 1 = 1 := by
  unfold updateSceneRatingFinal finalizeGauntletLossRating
  omega

/-- C7: a background refresh of the filtered bucket commits its results
(memory and persistent tiers) only when the filter key it fetched for is
still the cache's current filter key; otherwise both tiers are left
exactly unchanged. -/
theorem background_refresh_commit_guard (mem : MemCache) (idb : Option PersistEntry)
    (fetched : List Scene) (count : ℕ) (k : String) (now : ℤ) :
    (mem.filterKey ≠ some k →
      backgroundRefreshFilteredScenes mem idb fetched count k now = (mem, idb)) ∧
    (mem.filterKey = some k →
      backgroundRefreshFilteredScenes mem idb fetched count k now =
        ({ mem with filteredScenes := some fetched, timestamp := some now },
          some ⟨fetched, count, some k, now⟩)) := by
  unfold backgroundRefreshFilteredScenes
  constructor
  · intro h; rw [if_neg h]
  · intro h; rw [if_pos h]

/-- C7 witness: a refresh that completes after the filter changed is
discarded, leaving both tiers unchanged. -/
theorem background_refresh_commit_guard_witness :
    backgroundRefreshFilteredScenes ⟨none, some [], some "a", some 0⟩ none [] 0 "b" 7 =
      (⟨none, some [], some "a", some 0⟩, none) :=
  (background_refresh_commit_guard ⟨none, some [], some "a", some 0⟩ none [] 0 "b" 7).1
    (by decide)

/-- C4 counterexample: with an empty memory tier and a persistent entry
exactly `CACHE_MAX_AGE_MS` old, the read performs a blocking network
fetch and fires no background refetch even though an entry exists — the
persistent tier treats an over-age entry as a miss rather than serving
it stale. -/
theorem cache_stale_persistent_entry_counterexample :
    (getAllScenesCached ⟨none, none, none, none⟩
        (some ⟨[⟨7, some 50, none⟩], 1, none, 0⟩) CACHE_MAX_AGE_MS [] 0).didBlockingFetch
        = true ∧
    (some (⟨[⟨7, some 50, none⟩], 1, none, 0⟩ : PersistEntry)) ≠ none ∧
    (getAllScenesCached ⟨none, none, none, none⟩
        (some ⟨[⟨7, some 50, none⟩], 1, none, 0⟩) CACHE_MAX_AGE_MS [] 0).bgRefreshes = 0 := by
  decide

/-- C4 (amended): a stale entry in the *memory* tier is still servable —
the read returns it immediately, fires exactly one non-blocking
background refetch, and leaves the persistent record untouched; a
blocking network fetch happens exactly when the memory tier is empty and
the persistent-tier read misses (no record, or the record is at least
`CACHE_MAX_AGE_MS` old — over-age persistent entries are treated as
misses, not served stale); a read never deletes the persistent record. -/
theorem cache_stale_while_revalidate (mem : MemCache) (idb : Option PersistEntry)
    (now : ℤ) (net : List Scene) (netCount : ℕ) :
    (∀ scenes, mem.allScenes = some scenes →
      (getAllScenesCached mem idb now net netCount).didBlockingFetch = false ∧
      (getAllScenesCached mem idb now net netCount).scenes = scenes ∧
      (getAllScenesCached mem idb now net netCount).bgRefreshes =
        (if memIsStale mem.timestamp now then 1 else 0) ∧
      (getAllScenesCached mem idb now net netCount).idb = idb) ∧
    ((getAllScenesCached mem idb now net netCount).didBlockingFetch = true ↔
      mem.allScenes = none ∧ getCachedScenes idb now = none) ∧
    ((getAllScenesCached mem idb now net netCount).idb = none → idb = none) := by
  rcases hm : mem.allScenes with _ | scenes
  · rcases hc : getCachedScenes idb now with _ | e
    · rw [getAllScenesCached_blocking mem idb now net netCount hm hc]
      refine ⟨?_, ?_, ?_⟩
      · intro scenes h; simp [hm] at h
      · simp [hm, hc]
      · simp
    · rw [getAllScenesCached_idbHit mem idb now net netCount e hm hc]
      refine ⟨?_, ?_, ?_⟩
      · intro scenes h; simp [hm] at h
      · simp [hc]
      · intro h; exact h
  · rw [getAllScenesCached_memHit mem idb now net netCount scenes hm]
    refine ⟨?_, ?_, ?_⟩
    · intro scenes2 h
      injection h with h
      subst h
      exact ⟨rfl, rfl, rfl, rfl⟩
    · simp [hm]
    · intro h; exact h

/-- C4 witness: a five-minute-old memory entry is served with exactly one
background refetch and no blocking fetch. -/
theorem cache_stale_while_revalidate_witness :
    (getAllScenesCached ⟨some [⟨7, some 50, none⟩], none, none, some 0⟩ none
      CACHE_MAX_AGE_MS [] 0).didBlockingFetch = false ∧
    (getAllScenesCached ⟨some [⟨7, some 50, none⟩], none, none, some 0⟩ none
      CACHE_MAX_AGE_MS [] 0).bgRefreshes = 1 := by
  have h := (cache_stale_while_revalidate ⟨some [⟨7, some 50, none⟩], none, none, some 0⟩
    none CACHE_MAX_AGE_MS [] 0).1 [⟨7, some 50, none⟩] rfl
  refine ⟨h.1, ?_⟩
  rw [h.2.2.1]
  decide

/-- C2 (amended): in Gauntlet and Champion modes only the active side
(the champion, or the falling item in the falling sub-state) has its
rating changed by the standard formula; a passive side's rating is
unchanged — except that a passive loser currently ranked #1 drops by
exactly 1 point when its rating is at least 2 (at the floor rating 1 the
clamp leaves it unchanged). -/
theorem gauntlet_only_active_side_updates (m : Mode)
    (hm : m = Mode.gauntlet ∨ m = Mode.champion) (ctx : GauntletCtx)
    (wid lid : ℕ) (wr lr : Option ℤ) (wp lp : Option ℕ) (rank : Option ℤ) :
    (optIdMatches ctx.champion wid = false →
      (ctx.falling && optIdMatches ctx.fallingScene wid) = false →
      1 ≤ jsOrInt wr 50 → jsOrInt wr 50 ≤ 100 →
      (handleComparison m ctx wid lid wr lr wp lp rank).winnerChange = 0) ∧
    ((optIdMatches ctx.champion wid = true ∨
        (ctx.falling && optIdMatches ctx.fallingScene wid) = true) →
      (handleComparison m ctx wid lid wr lr wp lp rank).newWinnerRating =
        min 100 (max 1 (jsOrInt wr 50 + max 1 (round ((getKFactor wp : ℝ) *
          (1 - expectedWinnerScore (jsOrInt wr 50) (jsOrInt lr 50))))))) ∧
    (optIdMatches ctx.champion lid = false →
      (ctx.falling && optIdMatches ctx.fallingScene lid) = false →
      (rank ≠ some 1 → 1 ≤ jsOrInt lr 50 → jsOrInt lr 50 ≤ 100 →
        (handleComparison m ctx wid lid wr lr wp lp rank).loserChange = 0) ∧
      (rank = some 1 → 2 ≤ jsOrInt lr 50 → jsOrInt lr 50 ≤ 100 →
        (handleComparison m ctx wid lid wr lr wp lp rank).loserChange = -1)) ∧
    ((optIdMatches ctx.champion lid = true ∨
        (ctx.falling && optIdMatches ctx.fallingScene lid) = true) →
      (handleComparison m ctx wid lid wr lr wp lp rank).newLoserRating =
        min 100 (max 1 (jsOrInt lr 50 - max 1 (round ((getKFactor lp : ℝ) *
          expectedWinnerScore (jsOrInt wr 50) (jsOrInt lr 50)))))) := by
  rw [handleComparison_gauntlet m hm]
  simp only []
  refine ⟨?_, ?_, ?_, ?_⟩
  · intro h1 h2 h3 h4
    rw [h1, h2]
    simp only [Bool.or_self, Bool.false_eq_true, if_false]
    omega
  · intro h
    rcases h with h | h <;> rw [h] <;> simp
  · intro h1 h2
    rw [h1, h2]
    constructor
    · intro hr h3 h4
      rw [if_neg (by simp [hr])]
      simp only [Bool.or_self, Bool.false_eq_true, if_false]
      omega
    · intro hr h3 h4
      rw [if_pos ⟨hr, rfl, rfl⟩]
      omega
  · intro h
    rcases h with h | h <;> rw [h] <;> simp [h]

/-- C2 witness: the claim's own scenario — a champion rated 80
(play count 20) beats the rank-#1 defender rated 95; the passive
defender drops exactly 1 point. -/
theorem gauntlet_only_active_side_updates_witness :
    optIdMatches (some (⟨1, some 80, some 20⟩ : Scene)) 2 = false ∧
    2 ≤ jsOrInt (some 95) 50 ∧
    (handleComparison Mode.gauntlet ⟨some ⟨1, some 80, some 20⟩, false, none⟩ 1 2
      (some 80) (some 95) (some 20) (some 5) (some 1)).loserChange = -1 :=
  ⟨by decide, by decide,
    ((gauntlet_only_active_side_updates Mode.gauntlet (Or.inl rfl)
        ⟨some ⟨1, some 80, some 20⟩, false, none⟩ 1 2
        (some 80) (some 95) (some 20) (some 5) (some 1)).2.2.1
      (by decide) (by decide)).2 rfl (by decide) (by decide)⟩

/-- C2 counterexample: a passive rank-#1 defender whose rating is already
at the floor 1 loses without any rating drop — "drops by exactly 1" fails
as stated because of the `[1,100]` clamp. -/
theorem gauntlet_rank1_defender_floor_counterexample :
    (handleComparison Mode.gauntlet ⟨some ⟨1, some 80, some 20⟩, false, none⟩ 1 2
      (some 80) (some 1) (some 20) (some 5) (some 1)).loserChange = 0 := by
  rw [handleComparison_gauntlet Mode.gauntlet (Or.inl rfl)]
  have hl : jsOrInt (some 1) 50 = 1 := by norm_num [jsOrInt]
  simp only [hl]
  simp [optIdMatches]

/-- C8: if the "all items" array is sorted by rating descending,
`repositionSceneInArray` keeps it sorted: the updated item carries the
new rating and is reinserted (after removal) at the first position whose
rating key is below the new rating — everything before that position is
rated at least `newRating`, everything after is rated below it — and the
remaining members are exactly the original array minus the item; the
filtered bucket only has that item's rating patched in place with no
repositioning. -/
theorem applyRatingUpdate_keeps_sorted (arr : List Scene) (sceneId : ℕ) (newRating : ℤ)
    (s : Scene)
    (hsorted : arr.Pairwise (fun a b => ratingOr0 b ≤ ratingOr0 a))
    (hfind : arr[arr.findIdx (fun x => decide (x.id = sceneId))]? = some s) :
    (repositionSceneInArray arr sceneId newRating).1 = true ∧
    (repositionSceneInArray arr sceneId newRating).2 =
      (arr.eraseIdx (arr.findIdx (fun x => decide (x.id = sceneId)))).takeWhile
          (fun x => !(decide (ratingOr0 x < newRating))) ++
        { s with rating100 := some newRating } ::
          (arr.eraseIdx (arr.findIdx (fun x => decide (x.id = sceneId)))).dropWhile
            (fun x => !(decide (ratingOr0 x < newRating))) ∧
    (repositionSceneInArray arr sceneId newRating).2.Pairwise
      (fun a b => ratingOr0 b ≤ ratingOr0 a) ∧
    (repositionSceneInArray arr sceneId newRating).2.Perm
      ({ s with rating100 := some newRating } ::
        arr.eraseIdx (arr.findIdx (fun x => decide (x.id = sceneId)))) ∧
    (∀ x ∈ (arr.eraseIdx (arr.findIdx (fun x => decide (x.id = sceneId)))).takeWhile
        (fun x => !(decide (ratingOr0 x < newRating))), newRating ≤ ratingOr0 x) ∧
    (∀ x ∈ (arr.eraseIdx (arr.findIdx (fun x => decide (x.id = sceneId)))).dropWhile
        (fun x => !(decide (ratingOr0 x < newRating))), ratingOr0 x < newRating) ∧
    (∀ l : List Scene, (l.map Scene.id).Nodup →
      patchSceneRating sceneId newRating l =
        l.map (fun x => if x.id = sceneId then { x with rating100 := some newRating }
          else x)) := by
  obtain ⟨hlt, hget⟩ := List.getElem?_eq_some.mp hfind
  have hrepos : repositionSceneInArray arr sceneId newRating =
      (true, List.insertIdx
        ((arr.eraseIdx (arr.findIdx (fun x => decide (x.id = sceneId)))).findIdx
          (fun x => decide (ratingOr0 x < newRating)))
        { s with rating100 := some newRating }
        (arr.eraseIdx (arr.findIdx (fun x => decide (x.id = sceneId))))) := by
    unfold repositionSceneInArray
    rw [dif_pos hlt]
    rw [show arr.get ⟨arr.findIdx (fun x => decide (x.id = sceneId)), hlt⟩ = s from hget]
  have hsorted2 : (arr.eraseIdx (arr.findIdx (fun x => decide (x.id = sceneId)))).Pairwise
      (fun a b => ratingOr0 b ≤ ratingOr0 a) :=
    List.Pairwise.sublist (List.eraseIdx_sublist arr _) hsorted
  have hsplit := insertIdx_findIdx_eq (fun x => decide (ratingOr0 x < newRating))
    { s with rating100 := some newRating }
    (arr.eraseIdx (arr.findIdx (fun x => decide (x.id = sceneId))))
  have htake : ∀ x ∈ (arr.eraseIdx (arr.findIdx (fun x => decide (x.id = sceneId)))).takeWhile
      (fun x => !(decide (ratingOr0 x < newRating))), newRating ≤ ratingOr0 x := by
    intro x hx
    have := List.mem_takeWhile_imp hx
    simp only [Bool.not_eq_true', decide_eq_false_iff_not, not_lt] at this
    exact this
  have hdrop := sorted_dropWhile_lt newRating _ hsorted2
  refine ⟨by rw [hrepos], ?_, ?_, ?_, htake, hdrop, fun l h => patchSceneRating_eq_map _ _ l h⟩
  · rw [hrepos, hsplit]
  · rw [hrepos]
    simp only []
    rw [hsplit]
    rw [List.pairwise_append]
    refine ⟨List.Pairwise.sublist (List.takeWhile_sublist _) hsorted2, ?_, ?_⟩
    · rw [List.pairwise_cons]
      refine ⟨?_, List.Pairwise.sublist (List.dropWhile_sublist _) hsorted2⟩
      intro b hb
      rw [ratingOr0_set]
      exact le_of_lt (hdrop b hb)
    · intro a ha b hb
      rcases List.mem_cons.mp hb with h2 | h2
      · rw [h2, ratingOr0_set]
        exact htake a ha
      · exact le_trans (le_of_lt (hdrop b h2)) (htake a ha)
  · rw [hrepos]
    exact List.perm_insertIdx _ _ (List.findIdx_le_length _)

/-- C3: under a fixed (unchanged) filter key, starting a fresh cycle
(the shuffle order is empty, as at first load or after a reset), `n`
successive `next` calls — where `n = |available|` and
`available = filteredScenes minus removedIds` — return each available
item exactly once: the outputs with their `some` wrappers stripped are a
permutation of the available items, and no call returns the EMPTY
signal; an `(n+1)`-th call begins a new cycle whose pick is never the
immediately preceding one when `n > 1`. -/
theorem sampling_pool_cycle_no_repeat
    (filtered2 : List Scene) (k : String) (st : PoolState) (rs : List Rand)
    (hkey : st.shuffleFilterKey = some k)
    (hfreshStart : st.shuffledFilteredScenes = [])
    (hperm : ∀ r ∈ rs, ∀ l, (Rand.shuffle r l).Perm l)
    (hnd : (filtered2.map Scene.id).Nodup) :
    (rs.length = (availableScenes filtered2 st.removedSceneIds).length →
      ((runPool rs filtered2 k st).1.filterMap (fun x => x)).Perm
        (availableScenes filtered2 st.removedSceneIds) ∧
      none ∉ (runPool rs filtered2 k st).1) ∧
    (rs.length = (availableScenes filtered2 st.removedSceneIds).length + 1 →
      1 < (availableScenes filtered2 st.removedSceneIds).length →
      ((runPool rs filtered2 k st).1[
        (availableScenes filtered2 st.removedSceneIds).length - 1]?).join ≠ none ∧
      ((runPool rs filtered2 k st).1[
        (availableScenes filtered2 st.removedSceneIds).length]?).join ≠ none ∧
      (((runPool rs filtered2 k st).1[
        (availableScenes filtered2 st.removedSceneIds).length - 1]?).join).map Scene.id ≠
        (((runPool rs filtered2 k st).1[
          (availableScenes filtered2 st.removedSceneIds).length]?).join).map Scene.id) := by
  obtain ⟨o0, i0, k0, R, l0⟩ := st
  simp only [] at hkey hfreshStart ⊢
  subst hfreshStart
  subst hkey
  have hndA : ((availableScenes filtered2 R).map Scene.id).Nodup := by
    have hsub : (availableScenes filtered2 R).Sublist filtered2 := List.filter_sublist _
    exact hnd.sublist (hsub.map Scene.id)
  constructor
  · -- one full cycle over the available set
    intro hlen
    cases rs with
    | nil =>
      have hA : availableScenes filtered2 R = [] := by
        rw [← List.length_eq_zero, ← hlen]
        rfl
      rw [hA]
      simp [runPool]
    | cons r0 rest =>
      have hn : 0 < (availableScenes filtered2 R).length := by
        rw [← hlen]
        simp
      have hAne : availableScenes filtered2 R ≠ [] := by
        intro h
        rw [h] at hn
        simp at hn
      have hperm0 : (Rand.shuffle r0 (availableScenes filtered2 R)).Perm
          (availableScenes filtered2 R) :=
        hperm r0 (List.mem_cons_self r0 rest) (availableScenes filtered2 R)
      have holen : (Rand.shuffle r0 (availableScenes filtered2 R)).length =
          (availableScenes filtered2 R).length := hperm0.length_eq
      have hone : 0 < (Rand.shuffle r0 (availableScenes filtered2 R)).length := by omega
      have hordne : Rand.shuffle r0 (availableScenes filtered2 R) ≠ [] := by
        intro h
        rw [h] at hone
        simp at hone
      have hs0 : (Rand.shuffle r0 (availableScenes filtered2 R))[0]? =
          some (Rand.shuffle r0 (availableScenes filtered2 R))[0] :=
        List.getElem?_eq_getElem hone
      rw [runPool_cons,
        getNextFilteredScene_fresh_same_key r0 filtered2 k i0 R l0 _ hAne hs0]
      have hrestlen : 1 + rest.length ≤
          (Rand.shuffle r0 (availableScenes filtered2 R)).length := by
        have : (r0 :: rest).length = (availableScenes filtered2 R).length := hlen
        simp only [List.length_cons] at this
        omega
      obtain ⟨h1, _⟩ := runPool_mid rest filtered2 k R
        (Rand.shuffle r0 (availableScenes filtered2 R)) 1
        (some (Rand.shuffle r0 (availableScenes filtered2 R))[0].id) hAne hordne hrestlen
      simp only []
      rw [h1]
      have htk : ((Rand.shuffle r0 (availableScenes filtered2 R)).drop 1).take
          rest.length = (Rand.shuffle r0 (availableScenes filtered2 R)).drop 1 := by
        apply List.take_of_length_le
        have : (r0 :: rest).length = (availableScenes filtered2 R).length := hlen
        simp only [List.length_cons] at this
        simp only [List.length_drop]
        omega
      rw [htk]
      have hcons : (Rand.shuffle r0 (availableScenes filtered2 R))[0] ::
          (Rand.shuffle r0 (availableScenes filtered2 R)).drop 1 =
          Rand.shuffle r0 (availableScenes filtered2 R) := by
        conv_rhs => rw [← List.drop_zero (Rand.shuffle r0 (availableScenes filtered2 R)),
          List.drop_eq_getElem_cons hone]
      have hlist : some (Rand.shuffle r0 (availableScenes filtered2 R))[0] ::
          List.map some ((Rand.shuffle r0 (availableScenes filtered2 R)).drop 1) =
          List.map some (Rand.shuffle r0 (availableScenes filtered2 R)) := by
        rw [← List.map_cons, hcons]
      rw [hlist]
      constructor
      · have hfm : ∀ (l : List Scene), (l.map some).filterMap (fun x => x) = l := by
          intro l
          induction l with
          | nil => rfl
          | cons a l ihl => simp [List.filterMap_cons, ihl]
        rw [hfm]
        exact hperm0
      · simp
  · -- the (n+1)-th call starts a new cycle and avoids a back-to-back repeat
    intro hlen hn1
    cases rs with
    | nil => simp at hlen
    | cons r0 rest =>
      have hrestlen : rest.length = (availableScenes filtered2 R).length := by
        have : (r0 :: rest).length = (availableScenes filtered2 R).length + 1 := hlen
        simp only [List.length_cons] at this
        omega
      have hAne : availableScenes filtered2 R ≠ [] := by
        intro h
        rw [h] at hn1
        simp at hn1
      have hrne : rest ≠ [] := by
        intro h
        rw [h] at hrestlen
        simp at hrestlen
        omega
      have hperm0 : (Rand.shuffle r0 (availableScenes filtered2 R)).Perm
          (availableScenes filtered2 R) :=
        hperm r0 (List.mem_cons_self r0 rest) (availableScenes filtered2 R)
      have holen : (Rand.shuffle r0 (availableScenes filtered2 R)).length =
          (availableScenes filtered2 R).length := hperm0.length_eq
      have hone : 0 < (Rand.shuffle r0 (availableScenes filtered2 R)).length := by omega
      have hordne : Rand.shuffle r0 (availableScenes filtered2 R) ≠ [] := by
        intro h
        rw [h] at hone
        simp at hone
      have hs0 : (Rand.shuffle r0 (availableScenes filtered2 R))[0]? =
          some (Rand.shuffle r0 (availableScenes filtered2 R))[0] :=
        List.getElem?_eq_getElem hone
      rw [runPool_cons,
        getNextFilteredScene_fresh_same_key r0 filtered2 k i0 R l0 _ hAne hs0]
      simp only []
      rw [← List.dropLast_append_getLast hrne, runPool_append]
      have hmidlen : rest.dropLast.length = (availableScenes filtered2 R).length - 1 := by
        simp [List.length_dropLast, hrestlen]
      have hmid : 1 + rest.dropLast.length ≤
          (Rand.shuffle r0 (availableScenes filtered2 R)).length := by
        omega
      obtain ⟨h1, h2⟩ := runPool_mid rest.dropLast filtered2 k R
        (Rand.shuffle r0 (availableScenes filtered2 R)) 1
        (some (Rand.shuffle r0 (availableScenes filtered2 R))[0].id) hAne hordne hmid
      rw [h1, h2]
      have hnz : ¬ rest.dropLast.length = 0 := by
        rw [hmidlen]
        omega
      rw [if_neg hnz]
      have hidx : 1 + rest.dropLast.length - 1 =
          (availableScenes filtered2 R).length - 1 := by
        rw [hmidlen]
        omega
      have hilt : (availableScenes filtered2 R).length - 1 <
          (Rand.shuffle r0 (availableScenes filtered2 R)).length := by omega
      have hgs : (Rand.shuffle r0 (availableScenes filtered2 R))[
          (availableScenes filtered2 R).length - 1]? =
          some (Rand.shuffle r0 (availableScenes filtered2 R))[
            (availableScenes filtered2 R).length - 1] :=
        List.getElem?_eq_getElem hilt
      rw [hidx, hgs]
      have hsum : 1 + rest.dropLast.length =
          (Rand.shuffle r0 (availableScenes filtered2 R)).length := by
        omega
      rw [hsum]
      obtain ⟨s, hres, hsid, hsmem⟩ := getNextFilteredScene_cycle
        (rest.getLast hrne) filtered2 k R (Rand.shuffle r0 (availableScenes filtered2 R))
        ((Rand.shuffle r0 (availableScenes filtered2 R))[
          (availableScenes filtered2 R).length - 1]).id
        (hperm (rest.getLast hrne)
          (List.mem_cons_of_mem r0 (List.getLast_mem hrne))) hordne hn1 hndA
      rw [runPool_cons]
      simp only [Option.map_some']
      rw [hres]
      -- the combined output list and its two last entries
      simp only [runPool]
      rw [← List.cons_append, ← List.map_cons]
      have hlistlen : ((Rand.shuffle r0 (availableScenes filtered2 R))[0] ::
          ((Rand.shuffle r0 (availableScenes filtered2 R)).drop 1).take
            rest.dropLast.length).length = (availableScenes filtered2 R).length := by
        simp only [List.length_cons, List.length_take, List.length_drop]
        omega
      have hmaplen : (List.map some ((Rand.shuffle r0 (availableScenes filtered2 R))[0] ::
          ((Rand.shuffle r0 (availableScenes filtered2 R)).drop 1).take
            rest.dropLast.length)).length = (availableScenes filtered2 R).length := by
        rw [List.length_map, hlistlen]
      constructor
      · -- entry n-1 exists
        rw [List.getElem?_append_left (by omega : (availableScenes filtered2 R).length - 1 <
            (List.map some ((Rand.shuffle r0 (availableScenes filtered2 R))[0] ::
              ((Rand.shuffle r0 (availableScenes filtered2 R)).drop 1).take
                rest.dropLast.length)).length)]
        rw [List.getElem?_map]
        have : ((Rand.shuffle r0 (availableScenes filtered2 R))[0] ::
            ((Rand.shuffle r0 (availableScenes filtered2 R)).drop 1).take
              rest.dropLast.length)[(availableScenes filtered2 R).length - 1]? =
            some (((Rand.shuffle r0 (availableScenes filtered2 R))[0] ::
              ((Rand.shuffle r0 (availableScenes filtered2 R)).drop 1).take
                rest.dropLast.length).get
                  ⟨(availableScenes filtered2 R).length - 1, by omega⟩) := by
          exact List.getElem?_eq_getElem (by omega)
        rw [this]
        simp
      constructor
      · -- entry n exists
        rw [List.getElem?_append_right (by omega : (List.map some
            ((Rand.shuffle r0 (availableScenes filtered2 R))[0] ::
              ((Rand.shuffle r0 (availableScenes filtered2 R)).drop 1).take
                rest.dropLast.length)).length ≤ (availableScenes filtered2 R).length)]
        rw [hmaplen]
        simp
      · -- the two ids differ
        rw [List.getElem?_append_left (by omega : (availableScenes filtered2 R).length - 1 <
            (List.map some ((Rand.shuffle r0 (availableScenes filtered2 R))[0] ::
              ((Rand.shuffle r0 (availableScenes filtered2 R)).drop 1).take
                rest.dropLast.length)).length),
          List.getElem?_append_right (by omega : (List.map some
            ((Rand.shuffle r0 (availableScenes filtered2 R))[0] ::
              ((Rand.shuffle r0 (availableScenes filtered2 R)).drop 1).take
                rest.dropLast.length)).length ≤ (availableScenes filtered2 R).length)]
        rw [hmaplen, List.getElem?_map]
        have hements : ((Rand.shuffle r0 (availableScenes filtered2 R))[0] ::
            ((Rand.shuffle r0 (availableScenes filtered2 R)).drop 1).take
              rest.dropLast.length)[(availableScenes filtered2 R).length - 1]? =
            (Rand.shuffle r0 (availableScenes filtered2 R))[
              (availableScenes filtered2 R).length - 1]? := by
          cases hcase : (availableScenes filtered2 R).length - 1 with
          | zero =>
            rw [List.getElem?_cons_zero]
            exact (List.getElem?_eq_getElem hone).symm
          | succ m =>
            rw [List.getElem?_cons_succ]
            rw [List.getElem?_take, if_pos (by omega : m < rest.dropLast.length)]
            rw [List.getElem?_drop]
            congr 1
            omega
        rw [hements, hgs]
        simp only [Nat.sub_self, List.getElem?_cons_zero, Option.join, Option.some_bind,
          id_eq, Option.map_some']
        intro hcontra
        apply hsid
        have := Option.some.inj hcontra
        exact this.symm

/-- C3 witness: a three-scene filtered list with one id already removed —
the two-element available set is served exactly once over two calls with
no EMPTY signal, and on a three-call run the third call (the new cycle)
differs from the second. -/
theorem sampling_pool_cycle_no_repeat_witness :
    ((runPool [⟨id, 0⟩, ⟨id, 0⟩]
        [⟨1, some 50, none⟩, ⟨2, some 50, none⟩, ⟨3, some 50, none⟩] "k"
        ⟨[], 0, some "k", {3}, none⟩).1.filterMap (fun x => x)).Perm
      (availableScenes [⟨1, some 50, none⟩, ⟨2, some 50, none⟩, ⟨3, some 50, none⟩]
        {3}) ∧
    none ∉ (runPool [⟨id, 0⟩, ⟨id, 0⟩]
        [⟨1, some 50, none⟩, ⟨2, some 50, none⟩, ⟨3, some 50, none⟩] "k"
        ⟨[], 0, some "k", {3}, none⟩).1 ∧
    (((runPool [⟨id, 0⟩, ⟨id, 0⟩, ⟨id, 0⟩]
        [⟨1, some 50, none⟩, ⟨2, some 50, none⟩, ⟨3, some 50, none⟩] "k"
        ⟨[], 0, some "k", {3}, none⟩).1[1]?).join).map Scene.id ≠
      (((runPool [⟨id, 0⟩, ⟨id, 0⟩, ⟨id, 0⟩]
        [⟨1, some 50, none⟩, ⟨2, some 50, none⟩, ⟨3, some 50, none⟩] "k"
        ⟨[], 0, some "k", {3}, none⟩).1[2]?).join).map Scene.id := by
  have hp2 : ∀ r ∈ ([⟨id, 0⟩, ⟨id, 0⟩] : List Rand), ∀ l, (Rand.shuffle r l).Perm l := by
    intro r hr l
    rcases List.mem_cons.mp hr with h | h
    · rw [h]; exact List.Perm.refl l
    · rcases List.mem_cons.mp h with h2 | h2
      · rw [h2]; exact List.Perm.refl l
      · cases h2
  have hp3 : ∀ r ∈ ([⟨id, 0⟩, ⟨id, 0⟩, ⟨id, 0⟩] : List Rand), ∀ l,
      (Rand.shuffle r l).Perm l := by
    intro r hr l
    rcases List.mem_cons.mp hr with h | h
    · rw [h]; exact List.Perm.refl l
    · rcases List.mem_cons.mp h with h2 | h2
      · rw [h2]; exact List.Perm.refl l
      · rcases List.mem_cons.mp h2 with h3 | h3
        · rw [h3]; exact List.Perm.refl l
        · cases h3
  have h1 := (sampling_pool_cycle_no_repeat
    [⟨1, some 50, none⟩, ⟨2, some 50, none⟩, ⟨3, some 50, none⟩]
    "k" ⟨[], 0, some "k", {3}, none⟩ [⟨id, 0⟩, ⟨id, 0⟩] rfl rfl hp2
    (by decide)).1 (by decide)
  have h2 := (sampling_pool_cycle_no_repeat
    [⟨1, some 50, none⟩, ⟨2, some 50, none⟩, ⟨3, some 50, none⟩]
    "k" ⟨[], 0, some "k", {3}, none⟩ [⟨id, 0⟩, ⟨id, 0⟩, ⟨id, 0⟩] rfl rfl hp3
    (by decide)).2 (by decide) (by decide)
  exact ⟨h1.1, h1.2, h2.2.2⟩

/-- C5: when the sampling pool is exhausted (`next` returns the EMPTY
signal — in particular when every item of the filtered pool has been
judged under an unchanged filter key), `fetchSwissPair` clears the
filtered cache in both tiers, resets the pool, and retries `next`
exactly once on the refetched pool; if the retry is still EMPTY it
surfaces the "no items match" error, otherwise the pair is produced from
the retried draw.  No invalidation happens when the first draw
succeeds. -/
theorem pool_exhaustion_invalidates_and_retries_once
    (hasFilter : Bool) (filteredScenes allScenes freshFiltered : List Scene)
    (k : String) (st : PoolState) (mem : MemCache) (idb : Option PersistEntry)
    (r1 r2 : Rand) (pick : ℕ) (h2 : ¬ allScenes.length < 2) :
    (st.shuffleFilterKey = some k →
      (∀ s ∈ (if hasFilter then filteredScenes else allScenes), s.id ∈ st.removedSceneIds) →
      (getNextFilteredScene r1 (if hasFilter then filteredScenes else allScenes) k st).1 =
        none) ∧
    ((getNextFilteredScene r1 (if hasFilter then filteredScenes else allScenes) k st).1 =
        none →
      (fetchSwissPair hasFilter filteredScenes allScenes freshFiltered k st mem idb
        r1 r2 pick).forcedRefetch = true ∧
      (fetchSwissPair hasFilter filteredScenes allScenes freshFiltered k st mem idb
        r1 r2 pick).mem.filteredScenes = none ∧
      (fetchSwissPair hasFilter filteredScenes allScenes freshFiltered k st mem idb
        r1 r2 pick).mem.filterKey = none ∧
      (fetchSwissPair hasFilter filteredScenes allScenes freshFiltered k st mem idb
        r1 r2 pick).idbFiltered = none ∧
      ((getNextFilteredScene r2 (if hasFilter then freshFiltered else allScenes) k
          ⟨[], 0, none, ∅,
            (getNextFilteredScene r1 (if hasFilter then filteredScenes else allScenes) k
              st).2.lastShownSceneId⟩).1 = none →
        (fetchSwissPair hasFilter filteredScenes allScenes freshFiltered k st mem idb
          r1 r2 pick).result = Except.error "No scenes match your filter criteria.") ∧
      (∀ sc, (getNextFilteredScene r2 (if hasFilter then freshFiltered else allScenes) k
          ⟨[], 0, none, ∅,
            (getNextFilteredScene r1 (if hasFilter then filteredScenes else allScenes) k
              st).2.lastShownSceneId⟩).1 = some sc →
        (fetchSwissPair hasFilter filteredScenes allScenes freshFiltered k st mem idb
          r1 r2 pick).result = Except.ok (pickOpponent allScenes sc pick))) ∧
    (∀ sc, (getNextFilteredScene r1 (if hasFilter then filteredScenes else allScenes) k
        st).1 = some sc →
      (fetchSwissPair hasFilter filteredScenes allScenes freshFiltered k st mem idb
        r1 r2 pick).forcedRefetch = false ∧
      (fetchSwissPair hasFilter filteredScenes allScenes freshFiltered k st mem idb
        r1 r2 pick).result = Except.ok (pickOpponent allScenes sc pick)) := by
  refine ⟨?_, ?_, ?_⟩
  · intro hkey hall
    rw [getNextFilteredScene_exhausted r1 _ k st hkey hall]
  · intro hnone
    unfold fetchSwissPair
    rw [if_neg h2]
    simp only []
    rw [hnone]
    cases hp2 : (getNextFilteredScene r2 (if hasFilter then freshFiltered else allScenes) k
        ⟨[], 0, none, ∅,
          (getNextFilteredScene r1 (if hasFilter then filteredScenes else allScenes) k
            st).2.lastShownSceneId⟩).1 with
    | none => simp [clearFilteredCache]
    | some sc => simp [clearFilteredCache]
  · intro sc hp1
    unfold fetchSwissPair
    rw [if_neg h2]
    simp only []
    rw [hp1]
    exact ⟨rfl, rfl⟩

/-- C5 witness: a filtered pool of three items, all already judged under
the same filter key — the next draw is EMPTY, the forced
invalidate-and-refetch runs, and (with the refetch returning nothing
new) the "no items match" error surfaces. -/
theorem pool_exhaustion_invalidates_witness :
    (⟨[], 0, some "k", {1, 2, 3}, none⟩ : PoolState).shuffleFilterKey = some "k" ∧
    (fetchSwissPair true [⟨1, some 50, none⟩, ⟨2, some 50, none⟩, ⟨3, some 50, none⟩]
      [⟨1, some 50, none⟩, ⟨2, some 50, none⟩, ⟨3, some 50, none⟩] [] "k"
      ⟨[], 0, some "k", {1, 2, 3}, none⟩ ⟨none, none, some "k", some 0⟩ none
      ⟨id, 0⟩ ⟨id, 0⟩ 0).forcedRefetch = true ∧
    (fetchSwissPair true [⟨1, some 50, none⟩, ⟨2, some 50, none⟩, ⟨3, some 50, none⟩]
      [⟨1, some 50, none⟩, ⟨2, some 50, none⟩, ⟨3, some 50, none⟩] [] "k"
      ⟨[], 0, some "k", {1, 2, 3}, none⟩ ⟨none, none, some "k", some 0⟩ none
      ⟨id, 0⟩ ⟨id, 0⟩ 0).result = Except.error "No scenes match your filter criteria." := by
  have h := pool_exhaustion_invalidates_and_retries_once true
    [⟨1, some 50, none⟩, ⟨2, some 50, none⟩, ⟨3, some 50, none⟩]
    [⟨1, some 50, none⟩, ⟨2, some 50, none⟩, ⟨3, some 50, none⟩] [] "k"
    ⟨[], 0, some "k", {1, 2, 3}, none⟩ ⟨none, none, some "k", some 0⟩ none
    ⟨id, 0⟩ ⟨id, 0⟩ 0 (by decide)
  have hempty := h.1 rfl (by decide)
  have hmain := h.2.1 hempty
  exact ⟨rfl, hmain.1, hmain.2.2.2.2.1 (by decide)⟩

/-- C6: calling `next` with a filter key different from the pool's stored
key clears `removedIds` before sampling; and, under an unchanged filter
key, an item removed via `removeFromFilteredPool` is never returned by
any later `next` call — even when the backing filtered array is replaced
in the meantime by a refresh that still contains the removed item
(`filtered2` below is arbitrary). -/
theorem removed_items_survive_refresh :
    (∀ (r : Rand) (filtered2 : List Scene) (k k' : String) (st : PoolState),
      st.shuffleFilterKey = some k' → k ≠ k' →
      (getNextFilteredScene r filtered2 k st).2.removedSceneIds = ∅) ∧
    (∀ (X : ℕ) (memF : Option (List Scene)) (st : PoolState) (k : String)
        (rs : List Rand) (filtered2 : List Scene),
      st.shuffleFilterKey = some k →
      (st.shuffledFilteredScenes.map Scene.id).Nodup →
      (∀ r ∈ rs, ∀ l, (Rand.shuffle r l).Perm l) →
      ∀ res ∈ (runPool rs filtered2 k ((removeFromFilteredPool X memF st).2)).1,
        ∀ sc, res = some sc → sc.id ≠ X) := by
  constructor
  · intro r filtered2 k k' st hkey hne
    exact getNextFilteredScene_key_change_clears r filtered2 k k' st hkey hne
  · intro X memF st k rs filtered2 hkey hnd hperm
    obtain ⟨hinv, hkeep⟩ := removeFromFilteredPool_establishes X memF st hnd
    exact runPool_never_returns_removed rs filtered2 k _ X hperm
      (hkeep.trans hkey) hinv

/-- C6 witness: a two-scene pool under key "k"; scene 1 is removed, the
backing array is replaced by a refresh that still contains scene 1, and
two subsequent draws (identity shuffles) still serve only scene 2. -/
theorem removed_items_survive_refresh_witness :
    (getNextFilteredScene ⟨id, 0⟩ [⟨1, some 50, none⟩] "k2"
      ⟨[⟨1, some 50, none⟩], 0, some "k1", {7}, none⟩).2.removedSceneIds = ∅ ∧
    some (⟨2, some 50, none⟩ : Scene) ∈
      (runPool [⟨id, 0⟩, ⟨id, 0⟩] [⟨1, some 50, none⟩, ⟨2, some 50, none⟩] "k"
        ((removeFromFilteredPool 1 (some [⟨1, some 50, none⟩, ⟨2, some 50, none⟩])
          ⟨[⟨1, some 50, none⟩, ⟨2, some 50, none⟩], 0, some "k", ∅, none⟩).2)).1 ∧
    (⟨2, some 50, none⟩ : Scene).id ≠ 1 := by
  refine ⟨?_, by decide, ?_⟩
  · exact removed_items_survive_refresh.1 ⟨id, 0⟩ [⟨1, some 50, none⟩] "k2" "k1"
      ⟨[⟨1, some 50, none⟩], 0, some "k1", {7}, none⟩ rfl (by decide)
  · exact removed_items_survive_refresh.2 1
      (some [⟨1, some 50, none⟩, ⟨2, some 50, none⟩])
      ⟨[⟨1, some 50, none⟩, ⟨2, some 50, none⟩], 0, some "k", ∅, none⟩ "k"
      [⟨id, 0⟩, ⟨id, 0⟩] [⟨1, some 50, none⟩, ⟨2, some 50, none⟩] rfl (by decide)
      (by intro r hr l
          have : r = (⟨id, 0⟩ : Rand) := by
            rcases List.mem_cons.mp hr with h | h
            · exact h
            · rcases List.mem_cons.mp h with h2 | h2
              · exact h2
              · cases h2
          rw [this]
          exact List.Perm.refl l)
      (some ⟨2, some 50, none⟩) (by decide) ⟨2, some 50, none⟩ rfl

/-- C8 witness: repositioning a concrete scene in a concrete sorted
array. -/
theorem applyRatingUpdate_keeps_sorted_witness :
    (repositionSceneInArray
      [⟨1, some 10, none⟩, ⟨2, some 5, none⟩] 2 20).1 = true :=
  (applyRatingUpdate_keeps_sorted [⟨1, some 10, none⟩, ⟨2, some 5, none⟩] 2 20
    ⟨2, some 5, none⟩ (by decide) (by decide)).1

end StashBattle
